import Mathlib

/-!
Shallow embedding of the OIFITS file-level API (oifile.c) for verification of
its specification.  Tables and the container are modelled as Lean structures;
GLib linked lists become Lean lists, GLib hash tables become association
lists, and C numeric data values (doubles/floats copied opaquely by MEMDUP)
are modelled as integers, since no claim computes with their numeric value.
String buffers of size FLEN_VALUE are modelled as unbounded strings: every
string stored in the structs is itself bounded by FLEN_VALUE in C, so the
g_strlcpy truncation is unreachable.
-/

set_option autoImplicit false

/-- Opaque data value: stands for a C float/double bit pattern, which the
code only ever copies, never computes with (in the claims at issue). -/
abbrev DataVal := Int

/-- One record of the OI_TARGET table (fields accessed by oifile.c:
target_id and target; remaining scalar members are copied bitwise by MEMDUP
and behave identically, so two representatives suffice). -/
structure Target where
  target_id : Int
  target : String
  deriving DecidableEq, Repr

/-- OI_TARGET table. -/
structure OiTarget where
  revision : Int
  ntarget : Nat
  targ : List Target
  usecategory : Bool
  deriving DecidableEq, Repr

/-- One station element of an OI_ARRAY table. -/
structure Element where
  sta_index : Int
  deriving DecidableEq, Repr

/-- OI_ARRAY table. -/
structure OiArray where
  revision : Int
  arrname : String
  nelement : Nat
  elem : List Element
  deriving DecidableEq, Repr

/-- OI_WAVELENGTH table. -/
structure OiWavelength where
  revision : Int
  insname : String
  nwave : Nat
  eff_wave : List DataVal
  eff_band : List DataVal
  deriving DecidableEq, Repr

/-- OI_CORR table. -/
structure OiCorr where
  revision : Int
  corrname : String
  ndata : Int
  ncorr : Nat
  iindx : List Int
  jindx : List Int
  corr : List DataVal
  deriving DecidableEq, Repr

/-- OI_INSPOL (polarization) table; oifile.c accesses revision and arrname. -/
structure OiPolar where
  revision : Int
  arrname : String
  deriving DecidableEq, Repr

/-- One record of an OI_VIS table.  Scalar members (represented by
target_id, mjd, sta_index) are copied bitwise by the struct-level MEMDUP;
the pointer members are the per-channel arrays re-copied by dup_oi_vis. -/
structure OiVisRecord where
  target_id : Int
  mjd : DataVal
  sta_index : Int × Int
  visamp : List DataVal
  visamperr : List DataVal
  visphi : List DataVal
  visphierr : List DataVal
  flag : List Bool
  visrefmap : List Bool
  rvis : List DataVal
  rviserr : List DataVal
  ivis : List DataVal
  iviserr : List DataVal
  deriving DecidableEq, Repr

/-- OI_VIS table. -/
structure OiVis where
  revision : Int
  date_obs : String
  arrname : String
  insname : String
  corrname : String
  numrec : Nat
  nwave : Nat
  usevisrefmap : Bool
  usecomplex : Bool
  record : List OiVisRecord
  deriving DecidableEq, Repr

/-- One record of an OI_VIS2 table. -/
structure OiVis2Record where
  target_id : Int
  mjd : DataVal
  sta_index : Int × Int
  vis2data : List DataVal
  vis2err : List DataVal
  flag : List Bool
  deriving DecidableEq, Repr

/-- OI_VIS2 table. -/
structure OiVis2 where
  revision : Int
  date_obs : String
  arrname : String
  insname : String
  corrname : String
  numrec : Nat
  nwave : Nat
  record : List OiVis2Record
  deriving DecidableEq, Repr

/-- One record of an OI_T3 table. -/
structure OiT3Record where
  target_id : Int
  mjd : DataVal
  sta_index : Int × Int × Int
  t3amp : List DataVal
  t3amperr : List DataVal
  t3phi : List DataVal
  t3phierr : List DataVal
  flag : List Bool
  deriving DecidableEq, Repr

/-- OI_T3 table. -/
structure OiT3 where
  revision : Int
  date_obs : String
  arrname : String
  insname : String
  corrname : String
  numrec : Nat
  nwave : Nat
  record : List OiT3Record
  deriving DecidableEq, Repr

/-- One record of an OI_SPECTRUM table. -/
structure OiSpectrumRecord where
  target_id : Int
  mjd : DataVal
  fluxdata : List DataVal
  fluxerr : List DataVal
  deriving DecidableEq, Repr

/-- OI_SPECTRUM table. -/
structure OiSpectrum where
  revision : Int
  date_obs : String
  arrname : String
  insname : String
  corrname : String
  numrec : Nat
  nwave : Nat
  record : List OiSpectrumRecord
  deriving DecidableEq, Repr

/-- Primary header keywords (struct oi_header). -/
structure OiHeader where
  origin : String
  date_obs : String
  telescop : String
  instrume : String
  insmode : String
  object : String
  referenc : String
  prog_id : String
  procsoft : String
  obstech : String
  deriving DecidableEq, Repr

/-- A GLib hash table with string keys, modelled as an association list.
GHashTable stores pointers, so a stored NULL value is indistinguishable from
an absent key through g_hash_table_lookup; the Option value captures that. -/
abbrev AssocHash (α : Type) := List (String × Option α)

/-- The whole-file container (struct oi_fits). -/
structure OiFits where
  header : OiHeader
  targets : OiTarget
  numArray : Nat
  numWavelength : Nat
  numCorr : Nat
  numPolar : Nat
  numVis : Nat
  numVis2 : Nat
  numT3 : Nat
  numSpectrum : Nat
  arrayList : List OiArray
  wavelengthList : List OiWavelength
  corrList : List OiCorr
  polarList : List OiPolar
  visList : List OiVis
  vis2List : List OiVis2
  t3List : List OiT3
  spectrumList : List OiSpectrum
  arrayHash : AssocHash OiArray
  wavelengthHash : AssocHash OiWavelength
  corrHash : AssocHash OiCorr
  deriving DecidableEq, Repr

/-- init_oi_fits (oifile.c lines 271-311): blank header, empty revision-2
target list, all eight table sequences empty with counts 0, fresh empty
name indices. -/
def init_oi_fits : OiFits :=
  { header := { origin := "", date_obs := "", telescop := "", instrume := "",
                insmode := "", object := "", referenc := "", prog_id := "",
                procsoft := "", obstech := "" }
    targets := { revision := 2, ntarget := 0, targ := [], usecategory := false }
    numArray := 0, numWavelength := 0, numCorr := 0, numPolar := 0
    numVis := 0, numVis2 := 0, numT3 := 0, numSpectrum := 0
    arrayList := [], wavelengthList := [], corrList := [], polarList := []
    visList := [], vis2List := [], t3List := [], spectrumList := []
    arrayHash := [], wavelengthHash := [], corrHash := [] }

/-- The loop of RETURN_VAL_IF_BAD_TAB_REVISION (oifile.c lines 314-324):
walk a table list and report whether every table declares revision rev. -/
def all_rev_eq (rev : Int) (revs : List Int) : Bool :=
  revs.all (fun r => r == rev)

/-- is_oi_fits_one (oifile.c lines 335-345). -/
def is_oi_fits_one (pOi : OiFits) : Bool :=
  (pOi.targets.revision == 1)
  && all_rev_eq 1 (pOi.arrayList.map OiArray.revision)
  && all_rev_eq 1 (pOi.wavelengthList.map OiWavelength.revision)
  && all_rev_eq 1 (pOi.visList.map OiVis.revision)
  && all_rev_eq 1 (pOi.vis2List.map OiVis2.revision)
  && all_rev_eq 1 (pOi.t3List.map OiT3.revision)

/-- is_oi_fits_two (oifile.c lines 354-368). -/
def is_oi_fits_two (pOi : OiFits) : Bool :=
  (pOi.targets.revision == 2)
  && all_rev_eq 2 (pOi.arrayList.map OiArray.revision)
  && all_rev_eq 2 (pOi.wavelengthList.map OiWavelength.revision)
  && all_rev_eq 1 (pOi.corrList.map OiCorr.revision)
  && all_rev_eq 1 (pOi.polarList.map OiPolar.revision)
  && all_rev_eq 2 (pOi.visList.map OiVis.revision)
  && all_rev_eq 2 (pOi.vis2List.map OiVis2.revision)
  && all_rev_eq 2 (pOi.t3List.map OiT3.revision)
  && all_rev_eq 1 (pOi.spectrumList.map OiSpectrum.revision)

/-- Consume at most width leading decimal digits of a character list,
returning them and the remainder. -/
def take_digits : Nat → List Char → (List Char × List Char)
  | 0, cs => ([], cs)
  | _ + 1, [] => ([], [])
  | n + 1, c :: cs =>
      if c.isDigit then
        let p := take_digits n cs
        (c :: p.1, p.2)
      else ([], c :: cs)

/-- Numeric value of a digit string. -/
def digits_val (ds : List Char) : Int :=
  ds.foldl (fun a c => a * 10 + Int.ofNat (c.toNat - 48)) 0

/-- Model of one sscanf long conversion with a field width (such as %4ld):
skip leading whitespace, accept an optional sign, then at least one digit,
consuming at most width characters of the item (sign included). -/
def scan_long (width : Nat) (cs : List Char) : Option (Int × List Char) :=
  let cs1 := cs.dropWhile Char.isWhitespace
  match cs1 with
  | '-' :: rest =>
      let p := take_digits (width - 1) rest
      if p.1.isEmpty then none else some (- digits_val p.1, p.2)
  | '+' :: rest =>
      let p := take_digits (width - 1) rest
      if p.1.isEmpty then none else some (digits_val p.1, p.2)
  | _ =>
      let p := take_digits width cs1
      if p.1.isEmpty then none else some (digits_val p.1, p.2)

/-- Model of a literal character directive in a scanf format: the next input
character must match it exactly. -/
def scan_char (c : Char) : List Char → Option (List Char)
  | c2 :: rest => if c2 = c then some rest else none
  | [] => none

/-- Model of sscanf(s, "%4ld-%2ld-%2ld", &year, &month, &day) == 3 as used
in min_mjd (oifile.c lines 229, 237, 245, 253): some (year, month, day) iff
all three conversions succeed; trailing characters are ignored. -/
def parse_date_obs (s : String) : Option (Int × Int × Int) :=
  match scan_long 4 s.toList with
  | none => none
  | some (y, r1) =>
    match scan_char '-' r1 with
    | none => none
    | some r2 =>
      match scan_long 2 r2 with
      | none => none
      | some (m, r3) =>
        match scan_char '-' r3 with
        | none => none
        | some r4 =>
          match scan_long 2 r4 with
          | none => none
          | some (d, _) => some (y, m, d)

/-- Modelled from the spec: the calendar-date-to-day-count conversion
date2mjd lives in datemjd.c, which is not under src/.  The spec describes it
as converting a YYYY-MM-DD date to a day-count epoch (MJD); this is the
standard Gregorian conversion, with Int.tdiv mirroring C truncating integer
division. -/
def date2mjd (year month day : Int) : Int :=
  let a := Int.tdiv (month - 14) 12
  let jdn := Int.tdiv (1461 * (year + 4800 + a)) 4
           + Int.tdiv (367 * (month - 2 - 12 * a)) 12
           - Int.tdiv (3 * (Int.tdiv (year + 4900 + a) 100)) 4
           + day - 32075
  jdn - 2400001

/-- Modelled from the spec: the day-count-to-calendar-date conversion
mjd2date lives in datemjd.c, which is not under src/.  Standard inverse
Gregorian conversion, inverse of date2mjd on valid dates. -/
def mjd2date (mjd : Int) : Int × Int × Int :=
  let l0 := mjd + 2400001 + 68569
  let n := Int.tdiv (4 * l0) 146097
  let l1 := l0 - Int.tdiv (146097 * n + 3) 4
  let i := Int.tdiv (4000 * (l1 + 1)) 1461001
  let l2 := l1 - Int.tdiv (1461 * i) 4 + 31
  let j := Int.tdiv (80 * l2) 2447
  let d := l2 - Int.tdiv (2447 * j) 80
  let l3 := Int.tdiv j 11
  let m := j + 2 - 12 * l3
  let y := 100 * (n - 49) + i + l3
  (y, m, d)

/-- Left-pad a rendered number to a given width, as printf field widths do. -/
def pad_left (c : Char) (w : Nat) (s : String) : String :=
  String.mk (List.replicate (w - s.length) c) ++ s

/-- The g_snprintf(.., "%4ld-%02ld-%02ld", year, month, day) call of
set_oi_header (oifile.c lines 424-425), for the value ranges it receives. -/
def format_date (y m d : Int) : String :=
  pad_left ' ' 4 (toString y) ++ "-" ++ pad_left '0' 2 (toString m)
    ++ "-" ++ pad_left '0' 2 (toString d)

/-- One iteration of a min_mjd while-loop (oifile.c lines 227-257): if the
table's DATE-OBS parses, and its MJD is below the minimum so far, lower the
minimum. -/
def min_mjd_step (acc : Int) (s : String) : Int :=
  match parse_date_obs s with
  | some (y, m, d) =>
      let mjd := date2mjd y m d
      if mjd < acc then mjd else acc
  | none => acc

/-- min_mjd (oifile.c lines 216-259): fold min_mjd_step over the DATE-OBS
strings of the visibility, squared-visibility, triple-product and spectrum
tables in that order, starting from the sentinel 100000. -/
def min_mjd (pOi : OiFits) : Int :=
  (pOi.spectrumList.map OiSpectrum.date_obs).foldl min_mjd_step
    ((pOi.t3List.map OiT3.date_obs).foldl min_mjd_step
      ((pOi.vis2List.map OiVis2.date_obs).foldl min_mjd_step
        ((pOi.visList.map OiVis.date_obs).foldl min_mjd_step 100000)))

/-- The DATE-OBS strings of every measurement table, in the order min_mjd
visits them. -/
def all_date_obs (pOi : OiFits) : List String :=
  pOi.visList.map OiVis.date_obs ++ pOi.vis2List.map OiVis2.date_obs
    ++ pOi.t3List.map OiT3.date_obs ++ pOi.spectrumList.map OiSpectrum.date_obs

/-- The MJD of a DATE-OBS string, when it parses. -/
def parse_mjd (s : String) : Option Int :=
  (parse_date_obs s).map (fun t => date2mjd t.1 t.2.1 t.2.2)

/-- set_oi_header (oifile.c lines 390-426).  The headD defaults stand in for
the C code's NULL dereference when a count field disagrees with its list; in
a well-formed container (count = list length) they are unreachable. -/
def set_oi_header (pOi : OiFits) : OiFits :=
  let telescop :=
    if pOi.numArray = 0 then "UNKNOWN"
    else if pOi.numArray = 1 then
      (pOi.arrayList.headD
        { revision := 0, arrname := "", nelement := 0, elem := [] }).arrname
    else "MULTIPLE"
  let instrume :=
    if pOi.numWavelength = 1 then
      (pOi.wavelengthList.headD
        { revision := 0, insname := "", nwave := 0, eff_wave := [],
          eff_band := [] }).insname
    else "MULTIPLE"
  let object :=
    if pOi.targets.ntarget = 1 then
      (pOi.targets.targ.headD { target_id := 0, target := "" }).target
    else "MULTIPLE"
  let md := mjd2date (min_mjd pOi)
  { pOi with header :=
      { pOi.header with
          telescop := telescop, instrume := instrume, object := object,
          date_obs := format_date md.1 md.2.1 md.2.2 } }

/-- The final step of read_oi_fits after all tables are loaded (oifile.c
lines 705-706): backfill the aggregate header fields exactly when the
container is version-1 consistent. -/
def read_oi_fits_finish (pOi : OiFits) : OiFits :=
  if is_oi_fits_one pOi then set_oi_header pOi else pOi

/-- Sample container for exercising set_oi_header: one array table, one
wavelength table, one target. -/
def c4_sample : OiFits :=
  { init_oi_fits with
      numArray := 1
      arrayList := [{ revision := 1, arrname := "VLTI", nelement := 0,
                      elem := [] }]
      numWavelength := 1
      wavelengthList := [{ revision := 1, insname := "AMBER", nwave := 0,
                           eff_wave := [], eff_band := [] }]
      targets := { revision := 1, ntarget := 1,
                   targ := [{ target_id := 1, target := "Betelgeuse" }],
                   usecategory := false } }

/-- Sample container whose only measurement table is dated after the
min_mjd sentinel day-count 100000 (2132-09-01). -/
def c5_cex : OiFits :=
  { init_oi_fits with
      numVis := 1
      visList := [{ revision := 1, date_obs := "2150-01-01", arrname := "",
                    insname := "I", corrname := "", numrec := 0, nwave := 0,
                    usevisrefmap := false, usecomplex := false,
                    record := [] }] }

/-- Sample container whose only measurement table has an unparseable
DATE-OBS string. -/
def c10_sample : OiFits :=
  { init_oi_fits with
      numVis2 := 1
      vis2List := [{ revision := 1, date_obs := "N/A", arrname := "",
                     insname := "I", corrname := "", numrec := 0, nwave := 0,
                     record := [] }] }

/-- dup_oi_target (oifile.c lines 928-936): struct-level MEMDUP copies the
scalar fields, then the targ array is re-copied, ntarget records. -/
def dup_oi_target (pInTab : OiTarget) : OiTarget :=
  { revision := pInTab.revision
    ntarget := pInTab.ntarget
    usecategory := pInTab.usecategory
    targ := pInTab.targ.take pInTab.ntarget }

/-- dup_oi_array (oifile.c lines 944-952). -/
def dup_oi_array (pInTab : OiArray) : OiArray :=
  { revision := pInTab.revision
    arrname := pInTab.arrname
    nelement := pInTab.nelement
    elem := pInTab.elem.take pInTab.nelement }

/-- dup_oi_wavelength (oifile.c lines 961-971). -/
def dup_oi_wavelength (pInTab : OiWavelength) : OiWavelength :=
  { revision := pInTab.revision
    insname := pInTab.insname
    nwave := pInTab.nwave
    eff_wave := pInTab.eff_wave.take pInTab.nwave
    eff_band := pInTab.eff_band.take pInTab.nwave }

/-- dup_oi_corr (oifile.c lines 980-992). -/
def dup_oi_corr (pInTab : OiCorr) : OiCorr :=
  { revision := pInTab.revision
    corrname := pInTab.corrname
    ndata := pInTab.ndata
    ncorr := pInTab.ncorr
    iindx := pInTab.iindx.take pInTab.ncorr
    jindx := pInTab.jindx.take pInTab.ncorr
    corr := pInTab.corr.take pInTab.ncorr }

/-- The per-record body of dup_oi_vis's loop (oifile.c lines 1010-1039).
When a feature flag is unset the record-level MEMDUP has already copied the
pointer, so the output array is the input's (aliased in C, value-equal
here).  The iviserr line mirrors oifile.c line 1036, whose source array is
pInRec->rviserr. -/
def dup_oi_vis_record (nwave : Nat) (usevisrefmap usecomplex : Bool)
    (pInRec : OiVisRecord) : OiVisRecord :=
  { target_id := pInRec.target_id
    mjd := pInRec.mjd
    sta_index := pInRec.sta_index
    visamp := pInRec.visamp.take nwave
    visamperr := pInRec.visamperr.take nwave
    visphi := pInRec.visphi.take nwave
    visphierr := pInRec.visphierr.take nwave
    flag := pInRec.flag.take nwave
    visrefmap :=
      if usevisrefmap then pInRec.visrefmap.take (nwave * nwave)
      else pInRec.visrefmap
    rvis := if usecomplex then pInRec.rvis.take nwave else pInRec.rvis
    rviserr := if usecomplex then pInRec.rviserr.take nwave else pInRec.rviserr
    ivis := if usecomplex then pInRec.ivis.take nwave else pInRec.ivis
    iviserr :=
      if usecomplex then pInRec.rviserr.take nwave else pInRec.iviserr }

/-- dup_oi_vis (oifile.c lines 1001-1041). -/
def dup_oi_vis (pInTab : OiVis) : OiVis :=
  { revision := pInTab.revision
    date_obs := pInTab.date_obs
    arrname := pInTab.arrname
    insname := pInTab.insname
    corrname := pInTab.corrname
    numrec := pInTab.numrec
    nwave := pInTab.nwave
    usevisrefmap := pInTab.usevisrefmap
    usecomplex := pInTab.usecomplex
    record := (pInTab.record.take pInTab.numrec).map
      (dup_oi_vis_record pInTab.nwave pInTab.usevisrefmap pInTab.usecomplex) }

/-- The per-record body of dup_oi_vis2's loop (oifile.c lines 1059-1068). -/
def dup_oi_vis2_record (nwave : Nat) (pInRec : OiVis2Record) : OiVis2Record :=
  { target_id := pInRec.target_id
    mjd := pInRec.mjd
    sta_index := pInRec.sta_index
    vis2data := pInRec.vis2data.take nwave
    vis2err := pInRec.vis2err.take nwave
    flag := pInRec.flag.take nwave }

/-- dup_oi_vis2 (oifile.c lines 1050-1070). -/
def dup_oi_vis2 (pInTab : OiVis2) : OiVis2 :=
  { revision := pInTab.revision
    date_obs := pInTab.date_obs
    arrname := pInTab.arrname
    insname := pInTab.insname
    corrname := pInTab.corrname
    numrec := pInTab.numrec
    nwave := pInTab.nwave
    record := (pInTab.record.take pInTab.numrec).map
      (dup_oi_vis2_record pInTab.nwave) }

/-- The per-record body of dup_oi_t3's loop (oifile.c lines 1088-1101). -/
def dup_oi_t3_record (nwave : Nat) (pInRec : OiT3Record) : OiT3Record :=
  { target_id := pInRec.target_id
    mjd := pInRec.mjd
    sta_index := pInRec.sta_index
    t3amp := pInRec.t3amp.take nwave
    t3amperr := pInRec.t3amperr.take nwave
    t3phi := pInRec.t3phi.take nwave
    t3phierr := pInRec.t3phierr.take nwave
    flag := pInRec.flag.take nwave }

/-- dup_oi_t3 (oifile.c lines 1079-1103). -/
def dup_oi_t3 (pInTab : OiT3) : OiT3 :=
  { revision := pInTab.revision
    date_obs := pInTab.date_obs
    arrname := pInTab.arrname
    insname := pInTab.insname
    corrname := pInTab.corrname
    numrec := pInTab.numrec
    nwave := pInTab.nwave
    record := (pInTab.record.take pInTab.numrec).map
      (dup_oi_t3_record pInTab.nwave) }

/-- The per-record body of dup_oi_spectrum's loop (oifile.c lines
1121-1128). -/
def dup_oi_spectrum_record (nwave : Nat) (pInRec : OiSpectrumRecord) :
    OiSpectrumRecord :=
  { target_id := pInRec.target_id
    mjd := pInRec.mjd
    fluxdata := pInRec.fluxdata.take nwave
    fluxerr := pInRec.fluxerr.take nwave }

/-- dup_oi_spectrum (oifile.c lines 1112-1130). -/
def dup_oi_spectrum (pInTab : OiSpectrum) : OiSpectrum :=
  { revision := pInTab.revision
    date_obs := pInTab.date_obs
    arrname := pInTab.arrname
    insname := pInTab.insname
    corrname := pInTab.corrname
    numrec := pInTab.numrec
    nwave := pInTab.nwave
    record := (pInTab.record.take pInTab.numrec).map
      (dup_oi_spectrum_record pInTab.nwave) }

/-- A one-record visibility table with usecomplex set whose rviserr and
iviserr arrays hold different values. -/
def vis_bug : OiVis :=
  { revision := 1, date_obs := "2000-01-01", arrname := "A", insname := "I"
    corrname := "", numrec := 1, nwave := 1
    usevisrefmap := false, usecomplex := true
    record := [{ target_id := 1, mjd := 0, sta_index := (1, 2)
                 visamp := [5], visamperr := [6], visphi := [7]
                 visphierr := [8], flag := [false], visrefmap := []
                 rvis := [3], rviserr := [1], ivis := [4], iviserr := [2] }] }

/-- One table-write call of write_oi_fits, tagged with the table value and
(for the list-driven calls) the EXTVER sequence number passed to the
external codec's write function. -/
inductive WriteEvent where
  | header : OiHeader → WriteEvent
  | targetTab : OiTarget → WriteEvent
  | arrayTab : OiArray → Nat → WriteEvent
  | wavelengthTab : OiWavelength → Nat → WriteEvent
  | corrTab : OiCorr → Nat → WriteEvent
  | polarTab : OiPolar → Nat → WriteEvent
  | visTab : OiVis → Nat → WriteEvent
  | vis2Tab : OiVis2 → Nat → WriteEvent
  | t3Tab : OiT3 → Nat → WriteEvent
  | spectrumTab : OiSpectrum → Nat → WriteEvent
  deriving DecidableEq, Repr

/-- The loop of WRITE_OI_LIST (oifile.c lines 372-379): emit each table of a
list in stored order with an EXTVER counter that starts at the given value
and increments by one per table. -/
def write_oi_list {α : Type} (f : α → Nat → WriteEvent) (extver : Nat) :
    List α → List WriteEvent
  | [] => []
  | x :: xs => f x extver :: write_oi_list f (extver + 1) xs

/-- write_oi_fits (oifile.c lines 438-491) as the sequence of write calls it
issues: primary header, target table, then each table-type sequence via
WRITE_OI_LIST with EXTVER restarted at 1 for each type. -/
def write_oi_fits (oi : OiFits) : List WriteEvent :=
  WriteEvent.header oi.header :: WriteEvent.targetTab oi.targets ::
    (write_oi_list WriteEvent.arrayTab 1 oi.arrayList
      ++ write_oi_list WriteEvent.wavelengthTab 1 oi.wavelengthList
      ++ write_oi_list WriteEvent.corrTab 1 oi.corrList
      ++ write_oi_list WriteEvent.polarTab 1 oi.polarList
      ++ write_oi_list WriteEvent.visTab 1 oi.visList
      ++ write_oi_list WriteEvent.vis2Tab 1 oi.vis2List
      ++ write_oi_list WriteEvent.t3Tab 1 oi.t3List
      ++ write_oi_list WriteEvent.spectrumTab 1 oi.spectrumList)

/-- Written from the spec's words for comparison with write_oi_fits: within
a sequence, tables are emitted in their stored order and the j-th table
(1-based) of each type carries the type-local version number j, produced
here by pairing each sequence with the range 1..length. -/
def write_seq_spec {α : Type} (f : α → Nat → WriteEvent) (l : List α) :
    List WriteEvent :=
  (l.zip (List.range' 1 l.length)).map (fun p => f p.1 p.2)

/-- Written from the spec's words: the canonical emission order — primary
header, target table, then arrays, wavelengths, correlations,
polarizations, visibilities, squared-visibilities, triple-products,
spectra, each sequence numbered type-locally from 1. -/
def write_oi_fits_spec (oi : OiFits) : List WriteEvent :=
  [WriteEvent.header oi.header, WriteEvent.targetTab oi.targets]
    ++ write_seq_spec WriteEvent.arrayTab oi.arrayList
    ++ write_seq_spec WriteEvent.wavelengthTab oi.wavelengthList
    ++ write_seq_spec WriteEvent.corrTab oi.corrList
    ++ write_seq_spec WriteEvent.polarTab oi.polarList
    ++ write_seq_spec WriteEvent.visTab oi.visList
    ++ write_seq_spec WriteEvent.vis2Tab oi.vis2List
    ++ write_seq_spec WriteEvent.t3Tab oi.t3List
    ++ write_seq_spec WriteEvent.spectrumTab oi.spectrumList

/-- g_hash_table_lookup on a string-keyed table: the value of the first
matching key, with NULL (none) both for an absent key and for a stored NULL
value, exactly as the C caller observes. -/
def g_hash_table_lookup {α : Type} (h : AssocHash α) (key : String) :
    Option α :=
  match h.find? (fun p => p.1 == key) with
  | some p => p.2
  | none => none

/-- g_hash_table_insert on a string-keyed table: bind key to value.  The
new binding shadows any earlier one, which g_hash_table_lookup then never
returns — observationally the replacement GHashTable performs. -/
def g_hash_table_insert {α : Type} (h : AssocHash α) (key : String)
    (v : Option α) : AssocHash α :=
  (key, v) :: h

/-- find_oi_array (oifile.c lines 48-63): first table in the array list
whose ARRNAME matches, none (with a logged warning) otherwise. -/
def find_oi_array (pOi : OiFits) (arrname : String) : Option OiArray :=
  pOi.arrayList.find? (fun pArray => pArray.arrname == arrname)

/-- find_oi_wavelength (oifile.c lines 66-81). -/
def find_oi_wavelength (pOi : OiFits) (insname : String) :
    Option OiWavelength :=
  pOi.wavelengthList.find? (fun pWave => pWave.insname == insname)

/-- find_oi_corr (oifile.c lines 84-98). -/
def find_oi_corr (pOi : OiFits) (corrname : String) : Option OiCorr :=
  pOi.corrList.find? (fun pCorr => pCorr.corrname == corrname)

/-- oi_fits_lookup_array (oifile.c lines 771-774). -/
def oi_fits_lookup_array (pOi : OiFits) (arrname : String) : Option OiArray :=
  g_hash_table_lookup pOi.arrayHash arrname

/-- oi_fits_lookup_wavelength (oifile.c lines 809-813). -/
def oi_fits_lookup_wavelength (pOi : OiFits) (insname : String) :
    Option OiWavelength :=
  g_hash_table_lookup pOi.wavelengthHash insname

/-- oi_fits_lookup_corr (oifile.c lines 823-826). -/
def oi_fits_lookup_corr (pOi : OiFits) (corrname : String) : Option OiCorr :=
  g_hash_table_lookup pOi.corrHash corrname

/-- The name-index maintenance the loader performs per measurement table
for the optional ARRNAME and CORRNAME references (oifile.c lines 610-614
and 618-622 and their twins in the later passes): for each referenced name
in load order, if it is non-empty (strlen > 0) and not yet bound, bind it
to the result of scanning the table sequence (insertion only when
absent). -/
def process_names {α : Type} (find : String → Option α) (h : AssocHash α) :
    List String → AssocHash α
  | [] => h
  | name :: rest =>
      process_names find
        (if name.length > 0 then
          (if (g_hash_table_lookup h name).isSome then h
           else g_hash_table_insert h name (find name))
         else h) rest

/-- The name-index maintenance the loader performs per measurement table
for the mandatory INSNAME reference (oifile.c lines 615-617 and twins):
identical to the ARRNAME/CORRNAME path except that there is no emptiness
guard — every table's insname is processed. -/
def process_insnames {α : Type} (find : String → Option α)
    (h : AssocHash α) : List String → AssocHash α
  | [] => h
  | name :: rest =>
      process_insnames find
        (if (g_hash_table_lookup h name).isSome then h
         else g_hash_table_insert h name (find name)) rest

/-- Sample container for exercising the name indices: one array table A,
one wavelength table W, one correlation table C. -/
def c8_sample : OiFits :=
  { init_oi_fits with
      numArray := 1
      arrayList := [{ revision := 1, arrname := "A", nelement := 0,
                      elem := [] }]
      numWavelength := 1
      wavelengthList := [{ revision := 1, insname := "W", nwave := 0,
                           eff_wave := [], eff_band := [] }]
      numCorr := 1
      corrList := [{ revision := 1, corrname := "C", ndata := 0, ncorr := 0,
                     iindx := [], jindx := [], corr := [] }] }

/-- C2: is_oi_fits_one is TRUE iff the target list revision is 1 and every
loaded array, wavelength, visibility, squared-visibility and triple-product
table declares revision 1.  Correlation, polarization and spectrum tables are
ignored (the equivalence holds for arbitrary containers, whatever those
tables' revisions), and empty lists are vacuously consistent. -/
theorem c2_is_oi_fits_one_iff (pOi : OiFits) :
    is_oi_fits_one pOi = true ↔
      (pOi.targets.revision = 1 ∧
       (∀ t ∈ pOi.arrayList, t.revision = 1) ∧
       (∀ t ∈ pOi.wavelengthList, t.revision = 1) ∧
       (∀ t ∈ pOi.visList, t.revision = 1) ∧
       (∀ t ∈ pOi.vis2List, t.revision = 1) ∧
       (∀ t ∈ pOi.t3List, t.revision = 1)) := by
  simp [is_oi_fits_one, all_rev_eq, Bool.and_eq_true, List.all_eq_true,
    beq_iff_eq, and_assoc]

/-- C2 witness: a revision-1 container (one array table, one vis table) is
accepted by is_oi_fits_one via the equivalence. -/
theorem c2_is_oi_fits_one_iff_witness :
    is_oi_fits_one
      { init_oi_fits with
          targets := { revision := 1, ntarget := 0, targ := [],
                       usecategory := false }
          numArray := 1
          arrayList := [{ revision := 1, arrname := "VLTI", nelement := 0,
                          elem := [] }] } = true := by
  apply (c2_is_oi_fits_one_iff _).mpr
  refine ⟨rfl, ?_, ?_, ?_, ?_, ?_⟩ <;> decide

/-- C3: is_oi_fits_two is TRUE iff the target list and every loaded array,
wavelength, visibility, squared-visibility and triple-product table declare
revision 2, and every loaded correlation, polarization and spectrum table
declares revision 1. -/
theorem c3_is_oi_fits_two_iff (pOi : OiFits) :
    is_oi_fits_two pOi = true ↔
      (pOi.targets.revision = 2 ∧
       (∀ t ∈ pOi.arrayList, t.revision = 2) ∧
       (∀ t ∈ pOi.wavelengthList, t.revision = 2) ∧
       (∀ t ∈ pOi.corrList, t.revision = 1) ∧
       (∀ t ∈ pOi.polarList, t.revision = 1) ∧
       (∀ t ∈ pOi.visList, t.revision = 2) ∧
       (∀ t ∈ pOi.vis2List, t.revision = 2) ∧
       (∀ t ∈ pOi.t3List, t.revision = 2) ∧
       (∀ t ∈ pOi.spectrumList, t.revision = 1)) := by
  simp [is_oi_fits_two, all_rev_eq, Bool.and_eq_true, List.all_eq_true,
    beq_iff_eq, and_assoc]

/-- C3 witness: a container holding a revision-2 wavelength table and a
revision-1 spectrum table is accepted by is_oi_fits_two via the
equivalence. -/
theorem c3_is_oi_fits_two_iff_witness :
    is_oi_fits_two
      { init_oi_fits with
          numWavelength := 1
          wavelengthList := [{ revision := 2, insname := "AMBER", nwave := 0,
                               eff_wave := [], eff_band := [] }]
          numSpectrum := 1
          spectrumList := [{ revision := 1, date_obs := "2020-05-01",
                             arrname := "", insname := "AMBER",
                             corrname := "", numrec := 0, nwave := 0,
                             record := [] }] } = true := by
  apply (c3_is_oi_fits_two_iff _).mpr
  refine ⟨rfl, ?_, ?_, ?_, ?_, ?_, ?_, ?_, ?_⟩ <;> decide

/-- C9: a freshly initialized container has a revision-2 empty target list,
all eight table sequences empty with counts 0, and hence satisfies
is_oi_fits_two but not is_oi_fits_one. -/
theorem c9_init_oi_fits_empty :
    init_oi_fits.targets.revision = 2 ∧
    init_oi_fits.targets.ntarget = 0 ∧
    init_oi_fits.numArray = 0 ∧ init_oi_fits.numWavelength = 0 ∧
    init_oi_fits.numCorr = 0 ∧ init_oi_fits.numPolar = 0 ∧
    init_oi_fits.numVis = 0 ∧ init_oi_fits.numVis2 = 0 ∧
    init_oi_fits.numT3 = 0 ∧ init_oi_fits.numSpectrum = 0 ∧
    init_oi_fits.arrayList = [] ∧ init_oi_fits.wavelengthList = [] ∧
    init_oi_fits.corrList = [] ∧ init_oi_fits.polarList = [] ∧
    init_oi_fits.visList = [] ∧ init_oi_fits.vis2List = [] ∧
    init_oi_fits.t3List = [] ∧ init_oi_fits.spectrumList = [] ∧
    is_oi_fits_two init_oi_fits = true ∧
    is_oi_fits_one init_oi_fits = false := by
  decide

/-- min_mjd_step does nothing on an unparseable date. -/
theorem min_mjd_step_none {s : String} (a : Int) (h : parse_mjd s = none) :
    min_mjd_step a s = a := by
  unfold parse_mjd at h
  unfold min_mjd_step
  cases h2 : parse_date_obs s with
  | none => rfl
  | some t => rw [h2] at h; simp at h

/-- min_mjd_step lowers the running minimum to a parseable date's MJD. -/
theorem min_mjd_step_some {s : String} {mjd : Int} (a : Int)
    (h : parse_mjd s = some mjd) : min_mjd_step a s = min a mjd := by
  unfold parse_mjd at h
  unfold min_mjd_step
  cases h2 : parse_date_obs s with
  | none => rw [h2] at h; simp at h
  | some t =>
      rw [h2] at h
      simp only [Option.map_some'] at h
      obtain ⟨y, m, d⟩ := t
      simp only [Option.some.injEq] at h
      show (if date2mjd y m d < a then date2mjd y m d else a) = min a mjd
      rw [h, min_def]
      split_ifs <;> omega

/-- Folding min_mjd_step over date strings equals folding min over the MJD
values of the strings that parse, unparseable strings being skipped. -/
theorem foldl_min_mjd_eq (l : List String) (a : Int) :
    l.foldl min_mjd_step a = (l.filterMap parse_mjd).foldl min a := by
  induction l generalizing a with
  | nil => rfl
  | cons s rest ih =>
      rw [List.foldl_cons, List.filterMap_cons]
      cases h : parse_mjd s with
      | none => rw [min_mjd_step_none a h]; exact ih a
      | some mjd =>
          rw [min_mjd_step_some a h, List.foldl_cons]
          exact ih (min a mjd)

/-- min_mjd is the minimum of the sentinel 100000 and the MJD values of
every parseable measurement-table date, in visit order. -/
theorem min_mjd_eq_foldl_min (pOi : OiFits) :
    min_mjd pOi = ((all_date_obs pOi).filterMap parse_mjd).foldl min 100000 := by
  unfold min_mjd all_date_obs
  rw [List.filterMap_append, List.filterMap_append, List.filterMap_append,
      List.foldl_append, List.foldl_append, List.foldl_append,
      foldl_min_mjd_eq, foldl_min_mjd_eq, foldl_min_mjd_eq, foldl_min_mjd_eq]

/-- C4: after set_oi_header, on a container whose per-type counts agree with
its lists, the telescope field is UNKNOWN for zero array tables, the sole
array table's name for exactly one and MULTIPLE otherwise; the instrument
field is the sole wavelength table's name for exactly one wavelength table
and MULTIPLE in every other case, zero included; the object field is the
sole target's name for exactly one target and MULTIPLE otherwise. -/
theorem c4_set_oi_header_names (pOi : OiFits)
    (hA : pOi.numArray = pOi.arrayList.length)
    (hW : pOi.numWavelength = pOi.wavelengthList.length)
    (hT : pOi.targets.ntarget = pOi.targets.targ.length) :
    (set_oi_header pOi).header.telescop =
      (match pOi.arrayList with
       | [] => "UNKNOWN"
       | [a] => a.arrname
       | _ :: _ :: _ => "MULTIPLE") ∧
    (set_oi_header pOi).header.instrume =
      (match pOi.wavelengthList with
       | [w] => w.insname
       | _ => "MULTIPLE") ∧
    (set_oi_header pOi).header.object =
      (match pOi.targets.targ with
       | [t] => t.target
       | _ => "MULTIPLE") := by
  refine ⟨?_, ?_, ?_⟩
  · rcases hl : pOi.arrayList with _ | ⟨a, _ | ⟨b, rest⟩⟩ <;>
      simp [set_oi_header, hA, hl]
  · rcases hl : pOi.wavelengthList with _ | ⟨w, _ | ⟨v, rest⟩⟩ <;>
      simp [set_oi_header, hW, hl]
  · rcases hl : pOi.targets.targ with _ | ⟨t, _ | ⟨u, rest⟩⟩ <;>
      simp [set_oi_header, hT, hl]

/-- C4 witness: on a container with one array table VLTI, one wavelength
table AMBER and one target Betelgeuse, set_oi_header fills those names. -/
theorem c4_set_oi_header_names_witness :
    (set_oi_header c4_sample).header.telescop = "VLTI" ∧
    (set_oi_header c4_sample).header.instrume = "AMBER" ∧
    (set_oi_header c4_sample).header.object = "Betelgeuse" := by
  have h := c4_set_oi_header_names c4_sample rfl rfl rfl
  exact ⟨h.1, h.2.1, h.2.2⟩

/-- C5 counterexample: a container whose only measurement table is dated
2150-01-01, a parseable date later than the sentinel day-count 100000,
receives observation date 2132-09-01 instead of the table's (earliest)
date, refuting the claim as stated. -/
theorem c5_counterexample :
    c5_cex.visList.map OiVis.date_obs = ["2150-01-01"] ∧
    c5_cex.vis2List = [] ∧ c5_cex.t3List = [] ∧ c5_cex.spectrumList = [] ∧
    parse_date_obs "2150-01-01" = some (2150, 1, 1) ∧
    (set_oi_header c5_cex).header.date_obs = "2132-09-01" ∧
    (set_oi_header c5_cex).header.date_obs ≠ "2150-01-01" := by
  decide

/-- C5 (amended): set_oi_header sets the observation-date field to the
calendar rendering of the minimum of the sentinel day-count 100000 and the
MJD values of every parseable DATE-OBS among the loaded visibility,
squared-visibility, triple-product and spectrum tables; a table whose date
fails to parse is skipped rather than treated as an error. -/
theorem c5_date_obs_earliest (pOi : OiFits) :
    min_mjd pOi = ((all_date_obs pOi).filterMap parse_mjd).foldl min 100000 ∧
    (set_oi_header pOi).header.date_obs =
      format_date (mjd2date (min_mjd pOi)).1 (mjd2date (min_mjd pOi)).2.1
        (mjd2date (min_mjd pOi)).2.2 := by
  exact ⟨min_mjd_eq_foldl_min pOi, by simp [set_oi_header]⟩

/-- C10: when no loaded measurement table has a parseable DATE-OBS (in
particular when there are none at all), min_mjd returns its sentinel 100000
and set_oi_header renders the calendar date of day-count 100000 rather than
leaving the field unchanged. -/
theorem c10_min_mjd_sentinel (pOi : OiFits)
    (h : ∀ s ∈ all_date_obs pOi, parse_date_obs s = none) :
    min_mjd pOi = 100000 ∧
    (set_oi_header pOi).header.date_obs =
      format_date (mjd2date 100000).1 (mjd2date 100000).2.1
        (mjd2date 100000).2.2 := by
  have hempty : (all_date_obs pOi).filterMap parse_mjd = [] := by
    rw [List.filterMap_eq_nil_iff]
    intro s hs
    simp [parse_mjd, h s hs]
  have hmin : min_mjd pOi = 100000 := by
    rw [min_mjd_eq_foldl_min, hempty]
    rfl
  exact ⟨hmin, by simp [set_oi_header, hmin]⟩

/-- C10 witness: a container whose only measurement table is dated N/A gets
sentinel 100000 and observation date 2132-09-01. -/
theorem c10_min_mjd_sentinel_witness :
    min_mjd c10_sample = 100000 ∧
    (set_oi_header c10_sample).header.date_obs = "2132-09-01" := by
  have h := c10_min_mjd_sentinel c10_sample (by decide)
  exact ⟨h.1, h.2.trans (by decide)⟩

/-- C6: the final step of read_oi_fits invokes set_oi_header exactly when
the loaded container is version-1 consistent; otherwise the container, its
header fields included, is left unchanged. -/
theorem c6_read_oi_fits_finish (pOi : OiFits) :
    (is_oi_fits_one pOi = true →
      read_oi_fits_finish pOi = set_oi_header pOi) ∧
    (is_oi_fits_one pOi = false →
      read_oi_fits_finish pOi = pOi ∧
      (read_oi_fits_finish pOi).header = pOi.header) := by
  constructor
  · intro h; simp [read_oi_fits_finish, h]
  · intro h; simp [read_oi_fits_finish, h]

/-- C6 witness: a freshly initialized container is not version-1 consistent
(its target list declares revision 2), so the finish step leaves it
unchanged. -/
theorem c6_read_oi_fits_finish_witness :
    is_oi_fits_one init_oi_fits = false ∧
    read_oi_fits_finish init_oi_fits = init_oi_fits := by
  exact ⟨by decide, ((c6_read_oi_fits_finish init_oi_fits).2 (by decide)).1⟩

/-- C1: dup_oi_vis does not return a table value-equal to its source: with
usecomplex set, the copy's iviserr array is filled from the source's rviserr
array (oifile.c line 1036), so a source whose rviserr and iviserr differ
yields a copy whose iviserr differs from the source's.  This contradicts
the function's own stated contract of a deep copy. -/
theorem c1_dup_oi_vis_iviserr_bug :
    vis_bug.usecomplex = true ∧
    vis_bug.record.map OiVisRecord.rviserr = [[1]] ∧
    vis_bug.record.map OiVisRecord.iviserr = [[2]] ∧
    (dup_oi_vis vis_bug).record.map OiVisRecord.iviserr = [[1]] ∧
    (dup_oi_vis vis_bug).record.map OiVisRecord.iviserr ≠
      vis_bug.record.map OiVisRecord.iviserr := by
  decide

/-- A WRITE_OI_LIST loop starting at extver emits its list in stored order,
paired with the consecutive numbers extver, extver+1, ... . -/
theorem write_oi_list_eq_seq {α : Type} (f : α → Nat → WriteEvent)
    (k : Nat) (l : List α) :
    write_oi_list f k l
      = (l.zip (List.range' k l.length)).map (fun p => f p.1 p.2) := by
  induction l generalizing k with
  | nil => rfl
  | cons x xs ih =>
      rw [write_oi_list, ih (k + 1)]
      rfl

/-- C7: write_oi_fits emits the primary header, the target table, then the
table-type sequences in the order arrays, wavelengths, correlations,
polarizations, visibilities, squared-visibilities, triple-products,
spectra; within each sequence tables appear in stored order and the j-th
table of each type carries version number j, restarting at 1 per type. -/
theorem c7_write_oi_fits_order (oi : OiFits) :
    write_oi_fits oi = write_oi_fits_spec oi := by
  unfold write_oi_fits write_oi_fits_spec write_seq_spec
  rw [write_oi_list_eq_seq, write_oi_list_eq_seq, write_oi_list_eq_seq,
      write_oi_list_eq_seq, write_oi_list_eq_seq, write_oi_list_eq_seq,
      write_oi_list_eq_seq, write_oi_list_eq_seq]
  rfl

/-- Looking a key up right after inserting it returns the inserted value. -/
theorem lookup_insert_self {α : Type} (h : AssocHash α) (k : String)
    (v : Option α) :
    g_hash_table_lookup (g_hash_table_insert h k v) k = v := by
  simp [g_hash_table_lookup, g_hash_table_insert, List.find?_cons]

/-- Inserting under one key leaves lookups of a different key unchanged. -/
theorem lookup_insert_ne {α : Type} (h : AssocHash α) (k2 k : String)
    (v : Option α) (hne : k2 ≠ k) :
    g_hash_table_lookup (g_hash_table_insert h k2 v) k
      = g_hash_table_lookup h k := by
  have hbk : (k2 == k) = false := by simp [hne]
  simp [g_hash_table_lookup, g_hash_table_insert, List.find?_cons, hbk]

/-- Once a key resolves to its scan result, processing further names never
changes that: later inserts are guarded on absence or bind other keys. -/
theorem lookup_process_preserved {α : Type} (find : String → Option α)
    (k : String) (names : List String) (h : AssocHash α)
    (hk : g_hash_table_lookup h k = find k) :
    g_hash_table_lookup (process_names find h names) k = find k := by
  induction names generalizing h with
  | nil => exact hk
  | cons n rest ih =>
      rw [process_names]
      apply ih
      by_cases hlen : n.length > 0
      · rw [if_pos hlen]
        by_cases hsome : (g_hash_table_lookup h n).isSome = true
        · rw [if_pos hsome]; exact hk
        · rw [if_neg hsome]
          by_cases hn : n = k
          · subst hn; rw [lookup_insert_self]
          · rw [lookup_insert_ne _ _ _ _ hn]; exact hk
      · rw [if_neg hlen]; exact hk

/-- Processing names that never mention a key leaves its lookup unchanged. -/
theorem lookup_process_not_mem {α : Type} (find : String → Option α)
    (k : String) (names : List String) (h : AssocHash α)
    (hnm : k ∉ names) :
    g_hash_table_lookup (process_names find h names) k
      = g_hash_table_lookup h k := by
  induction names generalizing h with
  | nil => rfl
  | cons n rest ih =>
      rw [List.mem_cons] at hnm
      push_neg at hnm
      obtain ⟨hkn, hrest⟩ := hnm
      have hn : n ≠ k := fun he => hkn he.symm
      rw [process_names, ih _ hrest]
      by_cases hlen : n.length > 0
      · rw [if_pos hlen]
        by_cases hsome : (g_hash_table_lookup h n).isSome = true
        · rw [if_pos hsome]
        · rw [if_neg hsome, lookup_insert_ne _ _ _ _ hn]
      · rw [if_neg hlen]

/-- Processing a name list that mentions a non-empty key, starting from a
state where the key is unbound or already bound to its scan result, leaves
the key bound to the scan result. -/
theorem lookup_process_mem {α : Type} (find : String → Option α)
    (k : String) (hlen : 0 < k.length) :
    ∀ (names : List String) (h : AssocHash α), k ∈ names →
      (g_hash_table_lookup h k = none ∨ g_hash_table_lookup h k = find k) →
      g_hash_table_lookup (process_names find h names) k = find k := by
  intro names
  induction names with
  | nil => intro h hmem _; exact absurd hmem (List.not_mem_nil k)
  | cons n rest ih =>
      intro h hmem hk
      rw [process_names]
      by_cases hn : n = k
      · subst hn
        rw [if_pos hlen]
        by_cases hsome : (g_hash_table_lookup h n).isSome = true
        · rw [if_pos hsome]
          rcases hk with hk | hk
          · rw [hk] at hsome; simp at hsome
          · exact lookup_process_preserved find n rest h hk
        · rw [if_neg hsome]
          exact lookup_process_preserved find n rest _ (lookup_insert_self h n (find n))
      · have hmem2 : k ∈ rest := by
          rcases List.mem_cons.mp hmem with he | hr
          · exact absurd he.symm hn
          · exact hr
        apply ih _ hmem2
        by_cases hlen2 : n.length > 0
        · rw [if_pos hlen2]
          by_cases hsome : (g_hash_table_lookup h n).isSome = true
          · rw [if_pos hsome]; exact hk
          · rw [if_neg hsome, lookup_insert_ne _ _ _ _ hn]; exact hk
        · rw [if_neg hlen2]; exact hk

/-- Once a key resolves to its scan result, processing further insnames
never changes that. -/
theorem lookup_process_ins_preserved {α : Type} (find : String → Option α)
    (k : String) (names : List String) (h : AssocHash α)
    (hk : g_hash_table_lookup h k = find k) :
    g_hash_table_lookup (process_insnames find h names) k = find k := by
  induction names generalizing h with
  | nil => exact hk
  | cons n rest ih =>
      rw [process_insnames]
      apply ih
      by_cases hsome : (g_hash_table_lookup h n).isSome = true
      · rw [if_pos hsome]; exact hk
      · rw [if_neg hsome]
        by_cases hn : n = k
        · subst hn; rw [lookup_insert_self]
        · rw [lookup_insert_ne _ _ _ _ hn]; exact hk

/-- Processing insnames that never mention a key leaves its lookup
unchanged. -/
theorem lookup_process_ins_not_mem {α : Type} (find : String → Option α)
    (k : String) (names : List String) (h : AssocHash α)
    (hnm : k ∉ names) :
    g_hash_table_lookup (process_insnames find h names) k
      = g_hash_table_lookup h k := by
  induction names generalizing h with
  | nil => rfl
  | cons n rest ih =>
      rw [List.mem_cons] at hnm
      push_neg at hnm
      obtain ⟨hkn, hrest⟩ := hnm
      have hn : n ≠ k := fun he => hkn he.symm
      rw [process_insnames, ih _ hrest]
      by_cases hsome : (g_hash_table_lookup h n).isSome = true
      · rw [if_pos hsome]
      · rw [if_neg hsome, lookup_insert_ne _ _ _ _ hn]

/-- Processing an insname list that mentions a key, starting from a state
where the key is unbound or already bound to its scan result, leaves the
key bound to the scan result (no emptiness guard in this loader path). -/
theorem lookup_process_ins_mem {α : Type} (find : String → Option α)
    (k : String) :
    ∀ (names : List String) (h : AssocHash α), k ∈ names →
      (g_hash_table_lookup h k = none ∨ g_hash_table_lookup h k = find k) →
      g_hash_table_lookup (process_insnames find h names) k = find k := by
  intro names
  induction names with
  | nil => intro h hmem _; exact absurd hmem (List.not_mem_nil k)
  | cons n rest ih =>
      intro h hmem hk
      rw [process_insnames]
      by_cases hn : n = k
      · subst hn
        by_cases hsome : (g_hash_table_lookup h n).isSome = true
        · rw [if_pos hsome]
          rcases hk with hk | hk
          · rw [hk] at hsome; simp at hsome
          · exact lookup_process_ins_preserved find n rest h hk
        · rw [if_neg hsome]
          exact lookup_process_ins_preserved find n rest _
            (lookup_insert_self h n (find n))
      · have hmem2 : k ∈ rest := by
          rcases List.mem_cons.mp hmem with he | hr
          · exact absurd he.symm hn
          · exact hr
        apply ih _ hmem2
        by_cases hsome : (g_hash_table_lookup h n).isSome = true
        · rw [if_pos hsome]; exact hk
        · rw [if_neg hsome, lookup_insert_ne _ _ _ _ hn]; exact hk

/-- C8: on a container whose name indices were built by the loader from the
measurement tables' referenced names (starting from the empty indices), for
each of the three lookups — oi_fits_lookup_array, oi_fits_lookup_wavelength
and oi_fits_lookup_corr — a name never referenced looks up as not-found,
and a name referenced any number of times, by one table or several, looks
up as the result of the single linear scan (find_oi_array,
find_oi_wavelength, find_oi_corr), i.e. the same table instance on every
lookup, because an index entry is inserted only when the name is absent.
The array and correlation loader paths skip empty names (hence the
non-emptiness hypothesis there); the wavelength path has no such guard.
Lookups themselves are pure and leave the container and its indices
unchanged. -/
theorem c8_name_index_lookup (pOi : OiFits) (names : List String)
    (k : String) :
    (k ∉ names →
      oi_fits_lookup_array
        { pOi with arrayHash := process_names (find_oi_array pOi) [] names }
        k = none) ∧
    (0 < k.length → k ∈ names →
      oi_fits_lookup_array
        { pOi with arrayHash := process_names (find_oi_array pOi) [] names }
        k = find_oi_array pOi k) ∧
    (k ∉ names →
      oi_fits_lookup_wavelength
        { pOi with wavelengthHash :=
            process_insnames (find_oi_wavelength pOi) [] names }
        k = none) ∧
    (k ∈ names →
      oi_fits_lookup_wavelength
        { pOi with wavelengthHash :=
            process_insnames (find_oi_wavelength pOi) [] names }
        k = find_oi_wavelength pOi k) ∧
    (k ∉ names →
      oi_fits_lookup_corr
        { pOi with corrHash := process_names (find_oi_corr pOi) [] names }
        k = none) ∧
    (0 < k.length → k ∈ names →
      oi_fits_lookup_corr
        { pOi with corrHash := process_names (find_oi_corr pOi) [] names }
        k = find_oi_corr pOi k) := by
  refine ⟨?_, ?_, ?_, ?_, ?_, ?_⟩
  · intro hnm
    show g_hash_table_lookup (process_names (find_oi_array pOi) [] names) k
      = none
    rw [lookup_process_not_mem _ _ _ _ hnm]
    rfl
  · intro hlen hmem
    exact lookup_process_mem (find_oi_array pOi) k hlen names [] hmem
      (Or.inl rfl)
  · intro hnm
    show g_hash_table_lookup
      (process_insnames (find_oi_wavelength pOi) [] names) k = none
    rw [lookup_process_ins_not_mem _ _ _ _ hnm]
    rfl
  · intro hmem
    exact lookup_process_ins_mem (find_oi_wavelength pOi) k names [] hmem
      (Or.inl rfl)
  · intro hnm
    show g_hash_table_lookup (process_names (find_oi_corr pOi) [] names) k
      = none
    rw [lookup_process_not_mem _ _ _ _ hnm]
    rfl
  · intro hlen hmem
    exact lookup_process_mem (find_oi_corr pOi) k hlen names [] hmem
      (Or.inl rfl)

/-- C8 witness: with one array table A, one wavelength table W and one
correlation table C, each referenced by two measurement tables, the three
lookups resolve the referenced name to its scan result and report
not-found for the never-referenced name B. -/
theorem c8_name_index_lookup_witness :
    oi_fits_lookup_array
      { c8_sample with
          arrayHash := process_names (find_oi_array c8_sample) [] ["A", "A"] }
      "A" = find_oi_array c8_sample "A" ∧
    oi_fits_lookup_array
      { c8_sample with
          arrayHash := process_names (find_oi_array c8_sample) [] ["A", "A"] }
      "B" = none ∧
    oi_fits_lookup_wavelength
      { c8_sample with
          wavelengthHash :=
            process_insnames (find_oi_wavelength c8_sample) [] ["W", "W"] }
      "W" = find_oi_wavelength c8_sample "W" ∧
    oi_fits_lookup_wavelength
      { c8_sample with
          wavelengthHash :=
            process_insnames (find_oi_wavelength c8_sample) [] ["W", "W"] }
      "B" = none ∧
    oi_fits_lookup_corr
      { c8_sample with
          corrHash := process_names (find_oi_corr c8_sample) [] ["C", "C"] }
      "C" = find_oi_corr c8_sample "C" ∧
    oi_fits_lookup_corr
      { c8_sample with
          corrHash := process_names (find_oi_corr c8_sample) [] ["C", "C"] }
      "B" = none := by
  refine ⟨?_, ?_, ?_, ?_, ?_, ?_⟩
  · exact (c8_name_index_lookup c8_sample ["A", "A"] "A").2.1 (by decide)
      (by decide)
  · exact (c8_name_index_lookup c8_sample ["A", "A"] "B").1 (by decide)
  · exact (c8_name_index_lookup c8_sample ["W", "W"] "W").2.2.2.1
      (by decide)
  · exact (c8_name_index_lookup c8_sample ["W", "W"] "B").2.2.1 (by decide)
  · exact (c8_name_index_lookup c8_sample ["C", "C"] "C").2.2.2.2.2
      (by decide) (by decide)
  · exact (c8_name_index_lookup c8_sample ["C", "C"] "B").2.2.2.2.1
      (by decide)
